import Mathlib

/-!
Shallow embedding of the ai-music-arranger core (src/utils.py, src/models.py,
src/services.py) and proofs of the specification claims.

Conventions of the embedding:
* Python floats are modelled as `Rat` (all float values the claims touch are
  produced from integer literals, so no rounding questions arise).
* Fallible Python functions (those that can `raise`) become `Except String _`;
  the carried string is the exception message.
* Regular expressions are replaced by explicit structural matchers over the
  character list of the string.  The two patterns of the source,
  `^([A-Ga-g])([#b]?)(\d+)$` and `^[A-G][#b]?[0-9]+$`, are deterministic
  (the greedy optional accidental never needs backtracking, because an
  accidental character is never a digit), so a single left-to-right pass is
  an exact model on ASCII inputs.
* `Optional[str]` fields become `Option String`; a Python `None` is `none`
  and a present string `s` is `some s` (so the empty string is `some ""`,
  distinct from `none`, exactly as in Python where `'' is not None`).
-/

/-- `utils.Note`: pydantic model with `pitch : str`,
`accidental : Optional[str] = None`, `octave : int`.  Octaves produced by the
code are non-negative, and `parse_note` only ever builds non-negative octaves,
so `octave : Nat`. -/
structure Note where
  pitch : String
  accidental : Option String := none
  octave : Nat
deriving DecidableEq, Repr

/-- The character class `[A-Ga-g]` of the `parse_note` pattern. -/
def noteLetters : List Char :=
  ['A', 'B', 'C', 'D', 'E', 'F', 'G', 'a', 'b', 'c', 'd', 'e', 'f', 'g']

/-- The character class `[0-9]` (also `\d` restricted to ASCII). -/
def isDigitChar (c : Char) : Bool :=
  '0' ≤ c && c ≤ '9'

/-- Matching of the optional accidental group `([#b]?)`: consume a leading
`#` or `b` if present, otherwise capture the empty string. -/
def splitAccidental : List Char → String × List Char
  | [] => ("", [])
  | c :: rest =>
    if c = '#' ∨ c = 'b' then (String.mk [c], rest) else ("", c :: rest)

/-- Python `int` applied to a non-empty decimal digit string. -/
def digitsToNat (ds : List Char) : Nat :=
  ds.foldl (fun n c => 10 * n + (c.toNat - 48)) 0

/-- Character-list level core of the token matcher: a letter from `letters`,
then the optional accidental, then at least one digit, then end of input. -/
def matchNoteAux (letters : List Char) :
    List Char → Option (Char × String × List Char)
  | [] => none
  | c :: rest =>
    if c ∈ letters then
      let p := splitAccidental rest
      if p.2 ≠ [] ∧ p.2.all isDigitChar then some (c, p.1, p.2) else none
    else none

/-- Structural model of `re.match(r'^(letter)([#b]?)(\d+)$', s)` where
`letter` ranges over the character list `letters`: on success it returns the
three captured groups. -/
def matchNoteToken (letters : List Char) (s : String) :
    Option (Char × String × List Char) :=
  matchNoteAux letters s.data

/-- `utils.parse_note`: match the token against `^([A-Ga-g])([#b]?)(\d+)$`,
uppercase the letter, keep the captured accidental group verbatim, read the
digit group as an integer; the two defensive checks of the source
(`pitch not in 'ABCDEFG'`, `accidental not in ['', '#', 'b']`) are kept even
though the pattern already guarantees them. -/
def parseNote (noteStr : String) : Except String Note :=
  match matchNoteToken noteLetters noteStr with
  | none => .error ("Invalid note format: " ++ noteStr)
  | some (c, acc, ds) =>
    let pitch := c.toUpper
    if pitch ∉ ['A', 'B', 'C', 'D', 'E', 'F', 'G'] then
      .error ("Invalid pitch: " ++ String.mk [pitch])
    else if ¬ (acc = "" ∨ acc = "#" ∨ acc = "b") then
      .error ("Invalid accidental: " ++ acc)
    else
      .ok { pitch := String.mk [pitch], accidental := some acc,
            octave := digitsToNat ds }

example : parseNote "C4" =
    .ok { pitch := "C", accidental := some "", octave := 4 } := by rfl

example : parseNote "d#12" =
    .ok { pitch := "D", accidental := some "#", octave := 12 } := by rfl

example : (parseNote "H4").isOk = false := by decide

example : (parseNote "Cb").isOk = false := by decide

/-- One note of `utils.format_notes`: `f"{pitch}{acc_str}{octave}"` where
`acc_str` re-derives `#`/`b` from the (possibly `None`) accidental field. -/
def formatNote (note : Note) : String :=
  let accidental := note.accidental.getD ""
  let accStr : String :=
    if accidental = "#" then "#" else if accidental = "b" then "b" else ""
  note.pitch ++ accStr ++ toString note.octave

/-- `utils.format_notes`: space-joined rendering of each note. -/
def formatNotes (notes : List Note) : String :=
  String.intercalate " " (notes.map formatNote)

example : formatNotes [{ pitch := "C", accidental := some "#", octave := 4 },
    { pitch := "D", octave := 5 }] = "C#4 D5" := by rfl

/-- Python `str.lower()` (ASCII, which is all the source compares against). -/
def pyLower (s : String) : String :=
  String.mk (s.data.map Char.toLower)

/-- `utils.Scale._generate_scale`, as a function of the constructor arguments
`root` and `scale_type` (the `Scale` object computes this once in `__init__`
and caches it in `self.notes`).  The generated non-root notes carry pydantic's
default `accidental=None`. -/
def generateScale (root : String) (scaleType : String) :
    Except String (List Note) := do
  let rootNote ← parseNote root
  if (pyLower scaleType) = "major" then
    .ok [rootNote,
      { pitch := "D", octave := rootNote.octave },
      { pitch := "E", octave := rootNote.octave },
      { pitch := "F", octave := rootNote.octave },
      { pitch := "G", octave := rootNote.octave },
      { pitch := "A", octave := rootNote.octave },
      { pitch := "B", octave := rootNote.octave }]
  else if (pyLower scaleType) = "minor" then
    .ok [rootNote,
      { pitch := "D", octave := rootNote.octave },
      { pitch := "F", octave := rootNote.octave },
      { pitch := "G", octave := rootNote.octave },
      { pitch := "A", octave := rootNote.octave },
      { pitch := "B", octave := rootNote.octave },
      { pitch := "C", octave := rootNote.octave + 1 }]
  else
    .error ("Unsupported scale type: " ++ scaleType)

example : (generateScale "C4" "MAJOR").map List.length = .ok 7 := by rfl
example : (generateScale "C4" "dorian").isOk = false := by rfl

/-- `models.MusicNote`: validated record (pitch already passed
`validate_pitch`). -/
structure MusicNote where
  pitch : String
  duration : Rat
  timing : Rat
deriving DecidableEq, Repr

/-- `models.MusicNote.validate_pitch`: the pitch string must match
`^[A-G][#b]?[0-9]+$` — the same token shape as `parse_note` but with the
letter restricted to uppercase (case-sensitive).  The `isinstance(value, str)`
guard of the source is absorbed by the typed embedding (the argument is a
string).  On success pydantic keeps the value unchanged. -/
def validate_pitch (value : String) : Except String String :=
  match matchNoteToken ['A', 'B', 'C', 'D', 'E', 'F', 'G'] value with
  | some _ => .ok value
  | none => .error ("Invalid pitch format: " ++ value)

/-- Raw (pre-validation) counterpart of `MusicNote`: the keyword arguments of
`MusicNote(**note)`. -/
structure RawMusicNote where
  pitch : String
  duration : Rat
  timing : Rat
deriving DecidableEq, Repr

/-- Construction `MusicNote(**raw)`: pydantic runs `validate_pitch` and fails
the construction if it raises. -/
def mkMusicNote (raw : RawMusicNote) : Except String MusicNote := do
  let pitch ← validate_pitch raw.pitch
  .ok { pitch := pitch, duration := raw.duration, timing := raw.timing }

/-- `models.ChordProgression`: validated record. -/
structure ChordProgression where
  notes : List MusicNote
  key : String
deriving DecidableEq, Repr

/-- `models.ChordProgression.validate_key`: non-empty after stripping
whitespace. -/
def validate_key (value : String) : Except String String :=
  if value.trim = "" then .error "Key cannot be empty" else .ok value

/-- Raw counterpart of `ChordProgression`. -/
structure RawChordProgression where
  notes : List RawMusicNote
  key : String
deriving DecidableEq, Repr

/-- Construction `ChordProgression(**raw)`: fields are validated in
declaration order (`notes`, then `key`). -/
def mkChordProgression (raw : RawChordProgression) :
    Except String ChordProgression := do
  let notes ← raw.notes.mapM mkMusicNote
  let key ← validate_key raw.key
  .ok { notes := notes, key := key }

/-- `models.RhythmicPattern`: validated record. -/
structure RhythmicPattern where
  beats : List Rat
  tempo : Rat
deriving DecidableEq, Repr

/-- Raw counterpart of `RhythmicPattern` (both fields present). -/
structure RawRhythmicPattern where
  beats : List Rat
  tempo : Rat
deriving DecidableEq, Repr

/-- Construction `RhythmicPattern(**raw)` where `raw` is the value of
`data.get('rhythm', {})`.  When the `rhythm` key is absent the source calls
`RhythmicPattern(**{})`, and pydantic rejects the construction because both
`beats` and `tempo` are required fields with no default — modelled by the
`none` branch.  When present, `validate_tempo` rejects `tempo <= 0`. -/
def mkRhythmicPattern (raw : Option RawRhythmicPattern) :
    Except String RhythmicPattern :=
  match raw with
  | none => .error "field required"
  | some r =>
    if r.tempo ≤ 0 then .error "Tempo must be a positive number"
    else .ok { beats := r.beats, tempo := r.tempo }

/-- The argument of `models.validate_music_data`: a dict in which each of the
three keys may be absent (`data.get` with a default). -/
structure RawMusicData where
  notes : Option (List RawMusicNote)
  chords : Option (List RawChordProgression)
  rhythm : Option RawRhythmicPattern
deriving DecidableEq, Repr

/-- The successful result of `models.validate_music_data`. -/
structure ValidatedMusicData where
  notes : List MusicNote
  chords : List ChordProgression
  rhythm : RhythmicPattern
deriving DecidableEq, Repr

/-- `models.validate_music_data`: build the three validated collections in
order (notes, chords, rhythm); the first exception aborts the whole call and
is re-raised wrapped as `Invalid music data: ...`. -/
def validate_music_data (data : RawMusicData) :
    Except String ValidatedMusicData :=
  Except.mapError (fun e => "Invalid music data: " ++ e) (do
    let notes ← (data.notes.getD []).mapM mkMusicNote
    let chords ← (data.chords.getD []).mapM mkChordProgression
    let rhythm ← mkRhythmicPattern data.rhythm
    .ok { notes := notes, chords := chords, rhythm := rhythm })

example : validate_music_data
    { notes := some [], chords := some [],
      rhythm := some { beats := [1], tempo := 100 } } =
    .ok { notes := [], chords := [], rhythm := { beats := [1], tempo := 100 } } := by
  rfl

example : validate_music_data
    { notes := some [], chords := some [], rhythm := none } =
    .error "Invalid music data: field required" := by rfl

/-- `services.MusicInput`: harmony request. -/
structure MusicInput where
  melody : List Int
  chords : List String
  tempo : Int
deriving DecidableEq, Repr

/-- `services.MusicService._validate_input`.  The Python truthiness guards
(`not input_data.melody`, `not input_data.chords`) are kept even though they
are subsumed by the length checks.  Returns `True` on success. -/
def validateInput (inputData : MusicInput) : Except String Bool :=
  if inputData.melody.isEmpty ∨ inputData.melody.length < 5 then
    .error "Melody must contain at least 5 notes"
  else if inputData.chords.isEmpty ∨ inputData.chords.length < 2 then
    .error "At least 2 chords are required"
  else if inputData.tempo < 40 ∨ inputData.tempo > 240 then
    .error "Tempo must be between 40 and 240 BPM"
  else
    .ok true

/-- Cast of a Python int to float (`np.float32(n)` on the integers the
pipeline handles, all far below the 2^24 precision limit). -/
def intToRat (n : Int) : Rat := (n : Rat)

/-- `services.MusicService._chord_to_vector`: `chord_map.get(chord, [0]*7)`
followed by `np.array(..., dtype=float32)`. -/
def chordToVector (chord : String) : List Rat :=
  if chord = "Cmaj7" then [1, 0, 0, 0, 0, 0, 0]
  else if chord = "G7" then [0, 1, 0, 0, 0, 0, 0]
  else if chord = "Am7" then [0, 0, 1, 0, 0, 0, 0]
  else if chord = "D7" then [0, 0, 0, 1, 0, 0, 0]
  else if chord = "Em7" then [0, 0, 0, 0, 1, 0, 0]
  else if chord = "A7" then [0, 0, 0, 0, 0, 1, 0]
  else if chord = "Fmaj7" then [0, 0, 0, 0, 0, 0, 1]
  else List.replicate 7 0

/-- The chord vocabulary of `_chord_to_vector`, in dict enumeration order. -/
def chordVocab : List String :=
  ["Cmaj7", "G7", "Am7", "D7", "Em7", "A7", "Fmaj7"]

/-- A numpy array as used by `services.py`: either 1-dimensional or
2-dimensional. -/
inductive NpArr where
  | one (xs : List Rat)
  | two (xss : List (List Rat))
deriving DecidableEq, Repr

/-- `np.ndim`. -/
def NpArr.ndim : NpArr → Nat
  | .one _ => 1
  | .two _ => 2

/-- `np.array` applied to a list of equal-length rows (the call site only
ever passes rows produced by `_chord_to_vector`, all of length 7): an empty
list gives the 1-dimensional empty array of shape `(0,)`, a non-empty one a
2-dimensional array. -/
def npArrayOfRows (rows : List (List Rat)) : NpArr :=
  if rows = [] then .one [] else .two rows

/-- `np.concatenate` along axis 0.  numpy first requires every input array to
have the same number of dimensions as the first and raises a `ValueError`
otherwise; only then are the arrays joined.  (The axis-mismatch check on
trailing dimensions of 2-D inputs is not modelled: no call site with matching
ndims ever passes unequal row lengths.) -/
def npConcatenate (arrs : List NpArr) : Except String NpArr :=
  match arrs with
  | [] => .error "need at least one array to concatenate"
  | a :: rest =>
    if rest.all (fun b => NpArr.ndim b = NpArr.ndim a) then
      match a with
      | .one xs =>
        .ok (.one (xs ++ (rest.map (fun b =>
          match b with | .one ys => ys | .two yss => yss.flatten)).flatten))
      | .two xss =>
        .ok (.two (xss ++ (rest.map (fun b =>
          match b with | .one ys => [ys] | .two yss => yss)).flatten))
    else .error "all the input arrays must have same number of dimensions"

/-- `services.MusicService._process_input`: `melody` becomes a 1-D float
array, the per-chord vectors are stacked by `np.array` (2-D as soon as at
least one chord is present), `tempo` becomes a 1-element 1-D array, and the
three are passed to `np.concatenate`. -/
def processInput (inputData : MusicInput) : Except String NpArr :=
  let melody := NpArr.one (inputData.melody.map intToRat)
  let chords := npArrayOfRows (inputData.chords.map chordToVector)
  let tempo := NpArr.one [intToRat inputData.tempo]
  npConcatenate [melody, chords, tempo]

/-- `prediction.flatten()`. -/
def NpArr.flatten : NpArr → List Rat
  | .one xs => xs
  | .two xss => xss.flatten

/-- Python `int()` on a real value: truncation toward zero. -/
def pyInt (q : Rat) : Int :=
  if 0 ≤ q then q.floor else q.ceil

/-- `services.MusicService._convert_to_notes`. -/
def convertToNotes (prediction : NpArr) : List Int :=
  prediction.flatten.map pyInt

/-- `services.MusicService.generate_harmony`, abstracted over the input
processing step `proc` (in the source, `self._process_input`) and the
external model call `predict` (in the source, `self.model.predict`): validate
first, then process, then predict, then decode.  Any raised exception
propagates to the caller unchanged (the `except` clause logs and re-raises). -/
def generateHarmonyWith (proc : MusicInput → Except String NpArr)
    (predict : NpArr → NpArr) (inputData : MusicInput) :
    Except String (List Int) := do
  let _ ← validateInput inputData
  let processed ← proc inputData
  .ok (convertToNotes (predict processed))

/-- `services.MusicService.generate_harmony` with the concrete processing
step of the source. -/
def generateHarmony (predict : NpArr → NpArr) (inputData : MusicInput) :
    Except String (List Int) :=
  generateHarmonyWith processInput predict inputData

/-- Modelled from the spec (section 4.6 step 2 and section 6): the intended
flat encoding "melody values cast to floating point, each chord name encoded
via the Chord Encoder, tempo cast to a single-element floating-point value;
all three are concatenated into one flat numeric vector", of length
`len(melody) + 7*len(chords) + 1`.  The source's `_process_input` is compared
against this definition. -/
def specEncode (inputData : MusicInput) : List Rat :=
  inputData.melody.map intToRat ++
    (inputData.chords.map chordToVector).flatten ++ [intToRat inputData.tempo]

example : processInput
    { melody := [60, 62, 64, 65, 67], chords := ["Cmaj7", "G7"], tempo := 120 } =
    .error "all the input arrays must have same number of dimensions" := by rfl

example : (specEncode
    { melody := [60, 62, 64, 65, 67], chords := ["Cmaj7", "G7"],
      tempo := 120 }).length = 20 := by rfl


/-! ### Helper lemmas -/

theorem string_data_append (a b : String) : (a ++ b).data = a.data ++ b.data := by
  cases a; cases b; rfl

theorem string_eq_of_data {a b : String} (h : a.data = b.data) : a = b := by
  cases a; cases b; exact congrArg String.mk h

theorem not_accidental_of_digit {d : Char} (hd : isDigitChar d = true) :
    ¬ (d = '#' ∨ d = 'b') := by
  rintro (rfl | rfl) <;> simp [isDigitChar] at hd

theorem splitAccidental_shape (l : List Char) :
    (splitAccidental l).1.data ++ (splitAccidental l).2 = l ∧
      ((splitAccidental l).1 = "" ∨ (splitAccidental l).1 = "#" ∨
        (splitAccidental l).1 = "b") := by
  match l with
  | [] => exact ⟨rfl, Or.inl rfl⟩
  | c :: rest =>
    by_cases h : c = '#' ∨ c = 'b'
    · rcases h with rfl | rfl <;> simp [splitAccidental]
    · simp [splitAccidental, h]

theorem splitAccidental_of_acc (acc : String) (ds : List Char)
    (ha : acc = "" ∨ acc = "#" ∨ acc = "b")
    (hne : ds ≠ []) (hds : ds.all isDigitChar = true) :
    splitAccidental (acc.data ++ ds) = (acc, ds) := by
  rcases ha with rfl | rfl | rfl
  · match ds, hne with
    | d :: ds', _ =>
      have hd : isDigitChar d = true := by
        have := List.all_eq_true.mp hds d (by simp)
        simpa using this
      simp [splitAccidental, not_accidental_of_digit hd]
  · simp [splitAccidental]
  · simp [splitAccidental]

theorem matchNoteToken_mk (letters : List Char) (c : Char) (acc : String)
    (ds : List Char) (hc : c ∈ letters)
    (ha : acc = "" ∨ acc = "#" ∨ acc = "b")
    (hne : ds ≠ []) (hds : ds.all isDigitChar = true) :
    matchNoteToken letters ⟨c :: acc.data ++ ds⟩ = some (c, acc, ds) := by
  show (if c ∈ letters then
      let p := splitAccidental (acc.data ++ ds)
      if p.2 ≠ [] ∧ p.2.all isDigitChar then some (c, p.1, p.2) else none
    else none) = some (c, acc, ds)
  rw [if_pos hc]
  simp only [splitAccidental_of_acc acc ds ha hne hds]
  rw [if_pos ⟨hne, hds⟩]

theorem matchNoteToken_some {letters : List Char} {s : String} {c : Char}
    {acc : String} {ds : List Char}
    (h : matchNoteToken letters s = some (c, acc, ds)) :
    s.data = c :: acc.data ++ ds ∧ c ∈ letters ∧
      (acc = "" ∨ acc = "#" ∨ acc = "b") ∧ ds ≠ [] ∧
      ds.all isDigitChar = true := by
  unfold matchNoteToken at h
  match hs : s.data, h with
  | c' :: rest, h =>
    replace h : (if c' ∈ letters then
        let p := splitAccidental rest
        if p.2 ≠ [] ∧ p.2.all isDigitChar then some (c', p.1, p.2) else none
      else none) = some (c, acc, ds) := h
    by_cases hc : c' ∈ letters
    · rw [if_pos hc] at h
      simp only at h
      by_cases hcond : (splitAccidental rest).2 ≠ [] ∧
          (splitAccidental rest).2.all isDigitChar = true
      · rw [if_pos hcond] at h
        injection h with h'
        have h1 : c' = c := congrArg Prod.fst h'
        have h2 : (splitAccidental rest).1 = acc :=
          congrArg (fun p => p.2.1) h'
        have h3 : (splitAccidental rest).2 = ds :=
          congrArg (fun p => p.2.2) h'
        obtain ⟨hsh, hforms⟩ := splitAccidental_shape rest
        rw [h2, h3] at hsh
        rw [h2] at hforms
        rw [h3] at hcond
        exact ⟨by rw [h1, ← hsh]; rfl, h1 ▸ hc, hforms, hcond.1, hcond.2⟩
      · rw [if_neg hcond] at h; exact absurd h (by simp)
    · rw [if_neg hc] at h; exact absurd h (by simp)

theorem toUpper_mem_of_noteLetter {c : Char} (hc : c ∈ noteLetters) :
    c.toUpper ∈ ['A', 'B', 'C', 'D', 'E', 'F', 'G'] := by
  fin_cases hc <;> decide

theorem parseNote_builds (c : Char) (acc : String) (ds : List Char)
    (hc : c ∈ noteLetters) (ha : acc = "" ∨ acc = "#" ∨ acc = "b")
    (hne : ds ≠ []) (hds : ds.all isDigitChar = true) :
    parseNote ⟨c :: acc.data ++ ds⟩ =
      .ok { pitch := String.mk [c.toUpper], accidental := some acc,
            octave := digitsToNat ds } := by
  rw [parseNote, matchNoteToken_mk noteLetters c acc ds hc ha hne hds]
  simp only
  rw [if_neg (not_not_intro (toUpper_mem_of_noteLetter hc)),
    if_neg (not_not_intro ha)]

theorem validateInput_isOk_iff (i : MusicInput) :
    (validateInput i).isOk = true ↔
      (5 ≤ i.melody.length ∧ 2 ≤ i.chords.length ∧
        40 ≤ i.tempo ∧ i.tempo ≤ 240) := by
  rw [validateInput]
  split_ifs with h1 h2 h3
  · simp only [Except.isOk, Except.toBool, Bool.false_eq_true, false_iff]
    rcases h1 with h1 | h1
    · have : i.melody.length = 0 := by simpa [List.isEmpty_iff] using h1
      omega
    · omega
  · simp only [Except.isOk, Except.toBool, Bool.false_eq_true, false_iff]
    rcases h2 with h2 | h2
    · have : i.chords.length = 0 := by simpa [List.isEmpty_iff] using h2
      omega
    · omega
  · simp only [Except.isOk, Except.toBool, Bool.false_eq_true, false_iff]
    rcases h3 with h3 | h3 <;> omega
  · simp only [Except.isOk, Except.toBool, true_iff]
    push_neg at h1 h2 h3
    exact ⟨by omega, by omega, by omega, by omega⟩

theorem chordToVector_length (s : String) : (chordToVector s).length = 7 := by
  rw [chordToVector]
  split_ifs <;> rfl

theorem flatten_chord_vectors_length (cs : List String) :
    ((cs.map chordToVector).flatten).length = 7 * cs.length := by
  induction cs with
  | nil => rfl
  | cons c cs ih =>
    simp only [List.map_cons, List.flatten_cons, List.length_append,
      chordToVector_length, ih, List.length_cons]
    ring

theorem specEncode_length (i : MusicInput) :
    (specEncode i).length = i.melody.length + 7 * i.chords.length + 1 := by
  rw [specEncode]
  simp only [List.length_append, List.length_map, List.length_singleton,
    flatten_chord_vectors_length]

/-! ### Claim theorems -/

/-- C1: harmony-request validation fails exactly when the melody has fewer
than 5 entries, or the chords fewer than 2, or the tempo lies outside
`40 ≤ tempo ≤ 240`; and any validation failure is surfaced by
`generate_harmony` unchanged, for every processing step and every external
model — the request is rejected before any encoding work is performed. -/
theorem C1_validation_gates_pipeline (i : MusicInput) :
    ((validateInput i).isOk = true ↔
      (5 ≤ i.melody.length ∧ 2 ≤ i.chords.length ∧
        40 ≤ i.tempo ∧ i.tempo ≤ 240)) ∧
    (∀ msg, validateInput i = .error msg →
      ∀ proc predict, generateHarmonyWith proc predict i = .error msg) := by
  refine ⟨validateInput_isOk_iff i, ?_⟩
  intro msg hmsg proc predict
  simp only [generateHarmonyWith, hmsg]
  rfl

/-- Witness for C1: a melody of length 1 is rejected with the validation
message, before `_process_input` (or any model) is consulted. -/
theorem C1_validation_gates_pipeline_witness :
    generateHarmonyWith processInput id
        { melody := [60], chords := ["Cmaj7", "G7"], tempo := 120 } =
      .error "Melody must contain at least 5 notes" :=
  (C1_validation_gates_pipeline
      { melody := [60], chords := ["Cmaj7", "G7"], tempo := 120 }).2
    "Melody must contain at least 5 notes" rfl processInput id

/-- C2: the flat-vector encoding contract is the spec's intent, but the code
never meets it: for every input passing validation, `_process_input` raises
numpy's dimension-mismatch error (the melody array is 1-D while the stacked
chord vectors are 2-D), whereas the spec-modelled encoder `specEncode`
produces the claimed flat vector of length
`len(melody) + 7*len(chords) + 1`. -/
theorem C2_process_input_dimension_mismatch (i : MusicInput)
    (h : (validateInput i).isOk = true) :
    processInput i =
      .error "all the input arrays must have same number of dimensions" ∧
    (specEncode i).length = i.melody.length + 7 * i.chords.length + 1 := by
  refine ⟨?_, specEncode_length i⟩
  have h2 : 2 ≤ i.chords.length := ((validateInput_isOk_iff i).mp h).2.1
  have hne : i.chords.map chordToVector ≠ [] := by
    intro hmap
    have hl := congrArg List.length hmap
    simp only [List.length_map, List.length_nil] at hl
    omega
  rw [processInput, npArrayOfRows, if_neg hne]
  rfl

/-- Witness for C2: the spec's own example input (5 melody notes, 2 chords,
tempo 120) passes validation, yet `_process_input` raises instead of
returning the length-20 vector that `specEncode` produces. -/
theorem C2_process_input_dimension_mismatch_witness :
    processInput
        { melody := [60, 62, 64, 65, 67], chords := ["Cmaj7", "G7"],
          tempo := 120 } =
      .error "all the input arrays must have same number of dimensions" ∧
    (specEncode
        { melody := [60, 62, 64, 65, 67], chords := ["Cmaj7", "G7"],
          tempo := 120 }).length = 20 :=
  C2_process_input_dimension_mismatch _ (by rfl)

/-- C3: the chord encoder is a total function on strings: every input yields
a 7-element vector, each of the seven vocabulary members yields the one-hot
vector with the 1 at its enumeration position, and every string outside the
vocabulary yields the all-zero vector. -/
theorem C3_chord_encoder_total (s : String) :
    (chordToVector s).length = 7 ∧
    (∀ k : Fin 7, s = chordVocab.get ⟨k.val, k.isLt⟩ →
      chordToVector s = (List.replicate 7 (0 : Rat)).set k.val 1) ∧
    (s ∉ chordVocab → chordToVector s = List.replicate 7 0) := by
  refine ⟨chordToVector_length s, ?_, ?_⟩
  · intro k hs
    subst hs
    fin_cases k <;> rfl
  · intro hs
    simp only [chordVocab, List.mem_cons, List.not_mem_nil, or_false,
      not_or] at hs
    obtain ⟨h1, h2, h3, h4, h5, h6, h7⟩ := hs
    rw [chordToVector, if_neg h1, if_neg h2, if_neg h3, if_neg h4,
      if_neg h5, if_neg h6, if_neg h7]

/-- Witness for C3: `Am7` (vocabulary position 2) is one-hot encoded, and the
out-of-vocabulary chord `Bdim7` falls back silently to the zero vector. -/
theorem C3_chord_encoder_total_witness :
    chordToVector "Am7" = (List.replicate 7 (0 : Rat)).set 2 1 ∧
    chordToVector "Bdim7" = List.replicate 7 0 :=
  ⟨(C3_chord_encoder_total "Am7").2.1 ⟨2, by decide⟩ rfl,
   (C3_chord_encoder_total "Bdim7").2.2 (by decide)⟩

/-- C4: for every root token that parses, with the scale type compared
case-insensitively: `major` yields the 7-note fixed letter pattern root, D,
E, F, G, A, B at the root's octave (so the first element is the parsed
root); `minor` yields root, D, F, G, A, B at the root's octave and then C at
octave+1 (so the seventh element's octave is the root octave plus one); and
any other scale type fails with the unsupported-scale-type error. -/
theorem C4_scale_generation (root scaleType : String) (r : Note)
    (h : parseNote root = .ok r) :
    (pyLower scaleType = "major" →
      generateScale root scaleType = .ok [r,
        { pitch := "D", octave := r.octave },
        { pitch := "E", octave := r.octave },
        { pitch := "F", octave := r.octave },
        { pitch := "G", octave := r.octave },
        { pitch := "A", octave := r.octave },
        { pitch := "B", octave := r.octave }]) ∧
    (pyLower scaleType = "minor" →
      generateScale root scaleType = .ok [r,
        { pitch := "D", octave := r.octave },
        { pitch := "F", octave := r.octave },
        { pitch := "G", octave := r.octave },
        { pitch := "A", octave := r.octave },
        { pitch := "B", octave := r.octave },
        { pitch := "C", octave := r.octave + 1 }]) ∧
    (pyLower scaleType ≠ "major" → pyLower scaleType ≠ "minor" →
      generateScale root scaleType =
        .error ("Unsupported scale type: " ++ scaleType)) := by
  have hg : generateScale root scaleType =
      (if pyLower scaleType = "major" then
        .ok [r,
          { pitch := "D", octave := r.octave },
          { pitch := "E", octave := r.octave },
          { pitch := "F", octave := r.octave },
          { pitch := "G", octave := r.octave },
          { pitch := "A", octave := r.octave },
          { pitch := "B", octave := r.octave }]
      else if pyLower scaleType = "minor" then
        .ok [r,
          { pitch := "D", octave := r.octave },
          { pitch := "F", octave := r.octave },
          { pitch := "G", octave := r.octave },
          { pitch := "A", octave := r.octave },
          { pitch := "B", octave := r.octave },
          { pitch := "C", octave := r.octave + 1 }]
      else .error ("Unsupported scale type: " ++ scaleType)) := by
    simp only [generateScale, h]
    rfl
  refine ⟨fun h1 => ?_, fun h1 => ?_, fun h1 h2 => ?_⟩
  · rw [hg, if_pos h1]
  · rw [hg, if_neg (by rw [h1]; decide), if_pos h1]
  · rw [hg, if_neg h1, if_neg h2]

/-- Witness for C4 at root `C4` with scale types `Major`, `minor` and
`locrian`. -/
theorem C4_scale_generation_witness :
    generateScale "C4" "Major" = .ok [
      { pitch := "C", accidental := some "", octave := 4 },
      { pitch := "D", octave := 4 }, { pitch := "E", octave := 4 },
      { pitch := "F", octave := 4 }, { pitch := "G", octave := 4 },
      { pitch := "A", octave := 4 }, { pitch := "B", octave := 4 }] ∧
    generateScale "C4" "minor" = .ok [
      { pitch := "C", accidental := some "", octave := 4 },
      { pitch := "D", octave := 4 }, { pitch := "F", octave := 4 },
      { pitch := "G", octave := 4 }, { pitch := "A", octave := 4 },
      { pitch := "B", octave := 4 }, { pitch := "C", octave := 5 }] ∧
    generateScale "C4" "locrian" = .error "Unsupported scale type: locrian" :=
  ⟨(C4_scale_generation "C4" "Major"
      { pitch := "C", accidental := some "", octave := 4 } rfl).1 rfl,
   (C4_scale_generation "C4" "minor"
      { pitch := "C", accidental := some "", octave := 4 } rfl).2.1 rfl,
   (C4_scale_generation "C4" "locrian"
      { pitch := "C", accidental := some "", octave := 4 } rfl).2.2
     (by decide) (by decide)⟩

/-- C5: for every token matching `^[A-Ga-g][#b]?\d+$` (letter `c`, accidental
group `acc`, non-empty digit group `ds`), `parse_note` succeeds and recovers
the normalized components exactly: the pitch is the uppercased letter, the
accidental is the captured group, and the octave is the digit group read as
a non-negative integer. -/
theorem C5_parse_note_components (c : Char) (acc : String) (ds : List Char)
    (hc : c ∈ noteLetters) (ha : acc = "" ∨ acc = "#" ∨ acc = "b")
    (hne : ds ≠ []) (hds : ds.all isDigitChar = true) :
    parseNote ⟨c :: acc.data ++ ds⟩ =
      .ok { pitch := String.mk [c.toUpper], accidental := some acc,
            octave := digitsToNat ds } :=
  parseNote_builds c acc ds hc ha hne hds

/-- Witness for C5 at the token `d#12`. -/
theorem C5_parse_note_components_witness :
    parseNote "d#12" =
      .ok { pitch := "D", accidental := some "#", octave := 12 } :=
  C5_parse_note_components 'd' "#" ['1', '2'] (by decide)
    (Or.inr (Or.inl rfl)) (by decide) (by decide)

/-- C6 counterexample: the data model's "no accidental" value is `none`
(the pydantic default, which is also what the scale generator stores for its
natural notes), but `parse_note "C4"` stores the empty capture group
`some ""` — a different sentinel. -/
theorem C6_accidental_counterexample :
    ({ pitch := "C", octave := 4 } : Note).accidental = none ∧
    parseNote "C4" =
      .ok { pitch := "C", accidental := some "", octave := 4 } ∧
    (some "" : Option String) ≠ none :=
  ⟨rfl, rfl, by decide⟩

/-- C6 amended: `parse_note` stores the captured accidental group verbatim:
for a token with no accidental the stored value is the empty string
`some ""` — a falsy sentinel distinct from the model's `None` default — and
for a token with an accidental the stored value is exactly that `#` or `b`
character. -/
theorem C6_accidental_verbatim (c a : Char) (ds : List Char)
    (hc : c ∈ noteLetters) (hac : a = '#' ∨ a = 'b')
    (hne : ds ≠ []) (hds : ds.all isDigitChar = true) :
    ((parseNote ⟨c :: ds⟩).map Note.accidental = .ok (some "") ∧
      some "" ≠ (none : Option String)) ∧
    (parseNote ⟨c :: a :: ds⟩).map Note.accidental =
      .ok (some (String.mk [a])) := by
  refine ⟨⟨?_, by simp⟩, ?_⟩
  · rw [show (⟨c :: ds⟩ : String) = ⟨c :: ("" : String).data ++ ds⟩ from rfl,
      parseNote_builds c "" ds hc (Or.inl rfl) hne hds]
    rfl
  · rcases hac with rfl | rfl
    · rw [show (⟨c :: '#' :: ds⟩ : String) =
          ⟨c :: ("#" : String).data ++ ds⟩ from rfl,
        parseNote_builds c "#" ds hc (Or.inr (Or.inl rfl)) hne hds]
      rfl
    · rw [show (⟨c :: 'b' :: ds⟩ : String) =
          ⟨c :: ("b" : String).data ++ ds⟩ from rfl,
        parseNote_builds c "b" ds hc (Or.inr (Or.inr rfl)) hne hds]
      rfl

/-- Witness for C6 (amended) at the tokens `C4` and `Cb4`. -/
theorem C6_accidental_verbatim_witness :
    (((parseNote "C4").map Note.accidental = .ok (some "") ∧
      some "" ≠ (none : Option String)) ∧
    (parseNote "Cb4").map Note.accidental = .ok (some "b")) :=
  C6_accidental_verbatim 'C' 'b' ['4'] (by decide) (Or.inr rfl)
    (by decide) (by decide)

/-- C7: `MusicNote` pitch validation succeeds exactly on strings that
decompose as an uppercase letter A–G, an optional accidental, and at least
one digit; in particular it is case-sensitive, unlike the note parser: every
well-formed token whose pitch letter is lowercase is rejected by
`validate_pitch` yet accepted by `parse_note`. -/
theorem C7_music_note_pitch_case_sensitive :
    (∀ s : String, (validate_pitch s).isOk = true ↔
      ∃ c acc ds, s.data = c :: acc.data ++ ds ∧
        c ∈ ['A', 'B', 'C', 'D', 'E', 'F', 'G'] ∧
        (acc = "" ∨ acc = "#" ∨ acc = "b") ∧ ds ≠ [] ∧
        ds.all isDigitChar = true) ∧
    (∀ (c : Char) (acc : String) (ds : List Char),
      c ∈ ['a', 'b', 'c', 'd', 'e', 'f', 'g'] →
      (acc = "" ∨ acc = "#" ∨ acc = "b") → ds ≠ [] →
      ds.all isDigitChar = true →
      (validate_pitch ⟨c :: acc.data ++ ds⟩).isOk = false ∧
      (parseNote ⟨c :: acc.data ++ ds⟩).isOk = true) := by
  constructor
  · intro s
    constructor
    · intro hok
      rw [validate_pitch] at hok
      cases hm : matchNoteToken ['A', 'B', 'C', 'D', 'E', 'F', 'G'] s with
      | none =>
        rw [hm] at hok
        exact absurd hok (by simp [Except.isOk, Except.toBool])
      | some t =>
        obtain ⟨c, acc, ds⟩ := t
        obtain ⟨hsd, hcl, hforms, hne, hds⟩ := matchNoteToken_some hm
        exact ⟨c, acc, ds, hsd, hcl, hforms, hne, hds⟩
    · rintro ⟨c, acc, ds, hsd, hcl, ha, hne, hds⟩
      have hseq : s = ⟨c :: acc.data ++ ds⟩ := string_eq_of_data hsd
      subst hseq
      rw [validate_pitch, matchNoteToken_mk _ c acc ds hcl ha hne hds]
      rfl
  · intro c acc ds hcl ha hne hds
    have hcn : c ∈ noteLetters := by fin_cases hcl <;> decide
    refine ⟨?_, by rw [parseNote_builds c acc ds hcn ha hne hds]; rfl⟩
    have hnc : c ∉ (['A', 'B', 'C', 'D', 'E', 'F', 'G'] : List Char) := by
      fin_cases hcl <;> decide
    rw [validate_pitch]
    cases hm : matchNoteToken ['A', 'B', 'C', 'D', 'E', 'F', 'G']
        ⟨c :: acc.data ++ ds⟩ with
    | none => rfl
    | some t =>
      obtain ⟨c', acc', ds'⟩ := t
      obtain ⟨hsd, hcl', _, _, _⟩ := matchNoteToken_some hm
      replace hsd : c :: acc.data ++ ds = c' :: acc'.data ++ ds' := hsd
      injection hsd with hh _
      exact absurd (hh ▸ hcl') hnc

/-- Witness for C7 at the token `c4`. -/
theorem C7_music_note_pitch_case_sensitive_witness :
    (validate_pitch "c4").isOk = false ∧ (parseNote "c4").isOk = true :=
  C7_music_note_pitch_case_sensitive.2 'c' "" ['4'] (by decide)
    (Or.inl rfl) (by decide) (by decide)

/-- C8: batch validation is all-or-nothing: the record with empty notes and
chords and rhythm `{beats: [1.0], tempo: 100}` succeeds, returning empty
collections and the validated rhythm; and every record whose rhythm has
tempo −5 makes the whole call fail, the surfaced error being wrapped with
the context `Invalid music data`. -/
theorem C8_batch_all_or_nothing :
    (validate_music_data
        { notes := some [], chords := some [],
          rhythm := some { beats := [1], tempo := 100 } } =
      .ok { notes := [], chords := [],
            rhythm := { beats := [1], tempo := 100 } }) ∧
    (∀ (d : RawMusicData) (r : RawRhythmicPattern),
      d.rhythm = some r → r.tempo = -5 →
      (validate_music_data d).isOk = false ∧
      ∀ e, validate_music_data d = .error e →
        "Invalid music data: ".data <+: e.data) := by
  refine ⟨by rfl, ?_⟩
  intro d r hr ht
  have key : ∃ e0, validate_music_data d =
      .error ("Invalid music data: " ++ e0) := by
    cases hn : (d.notes.getD []).mapM mkMusicNote with
    | error e => exact ⟨e, by rw [validate_music_data, hn]; rfl⟩
    | ok ns =>
      cases hc : (d.chords.getD []).mapM mkChordProgression with
      | error e => exact ⟨e, by rw [validate_music_data, hn, hc]; rfl⟩
      | ok cs =>
        refine ⟨"Tempo must be a positive number", ?_⟩
        have hrv : mkRhythmicPattern d.rhythm =
            .error "Tempo must be a positive number" := by
          rw [hr]
          simp only [mkRhythmicPattern]
          rw [if_pos (by rw [ht]; norm_num)]
        rw [validate_music_data, hn, hc, hrv]
        rfl
  obtain ⟨e0, he0⟩ := key
  refine ⟨by rw [he0]; rfl, ?_⟩
  intro e he
  rw [he0] at he
  injection he with h
  rw [← h, string_data_append]
  exact List.prefix_append _ _

/-- Witness for C8: the record with empty notes/chords and rhythm tempo −5
fails as a unit, with the wrapped tempo error surfaced. -/
theorem C8_batch_all_or_nothing_witness :
    (validate_music_data
        { notes := some [], chords := some [],
          rhythm := some { beats := [1], tempo := -5 } }).isOk = false ∧
    "Invalid music data: ".data <+:
      "Invalid music data: Tempo must be a positive number".data :=
  ⟨(C8_batch_all_or_nothing.2
      { notes := some [], chords := some [],
        rhythm := some { beats := [1], tempo := -5 } }
      { beats := [1], tempo := -5 } rfl rfl).1,
   (C8_batch_all_or_nothing.2
      { notes := some [], chords := some [],
        rhythm := some { beats := [1], tempo := -5 } }
      { beats := [1], tempo := -5 } rfl rfl).2 _ (by rfl)⟩

/-- C9 counterexample: a record with valid (empty) notes and chords but no
rhythm key is rejected, because `RhythmicPattern(**{})` fails on its
required fields — so `rhythm` is not an optional key as the claim states. -/
theorem C9_rhythm_required_counterexample :
    validate_music_data
        { notes := some [], chords := some [], rhythm := none } =
      .error "Invalid music data: field required" := by rfl

/-- C9 amended: only `notes` and `chords` are optional keys: omitting both
still succeeds whenever the rhythm record is present and valid, but omitting
the `rhythm` key makes the whole call fail for every choice of the other two
keys. -/
theorem C9_keys_amended :
    (∀ (n : Option (List RawMusicNote))
        (c : Option (List RawChordProgression)),
      (validate_music_data
          { notes := n, chords := c, rhythm := none }).isOk = false) ∧
    (∀ r : RawRhythmicPattern, 0 < r.tempo →
      validate_music_data { notes := none, chords := none, rhythm := some r } =
        .ok { notes := [], chords := [],
              rhythm := { beats := r.beats, tempo := r.tempo } }) := by
  constructor
  · intro n c
    cases hn : (n.getD []).mapM mkMusicNote with
    | error e => rw [validate_music_data]; rw [show
        ({ notes := n, chords := c, rhythm := none } :
          RawMusicData).notes = n from rfl, hn]; rfl
    | ok ns =>
      cases hc : (c.getD []).mapM mkChordProgression with
      | error e => rw [validate_music_data]; rw [show
          ({ notes := n, chords := c, rhythm := none } :
            RawMusicData).notes = n from rfl, hn, show
          ({ notes := n, chords := c, rhythm := none } :
            RawMusicData).chords = c from rfl, hc]; rfl
      | ok cs =>
        rw [validate_music_data]; rw [show
          ({ notes := n, chords := c, rhythm := none } :
            RawMusicData).notes = n from rfl, hn, show
          ({ notes := n, chords := c, rhythm := none } :
            RawMusicData).chords = c from rfl, hc]; rfl
  · intro r hr
    have hrv : mkRhythmicPattern (some r) =
        .ok { beats := r.beats, tempo := r.tempo } := by
      simp only [mkRhythmicPattern]
      rw [if_neg (not_le.mpr hr)]
    rw [validate_music_data]
    rw [show ({ notes := none, chords := none, rhythm := some r } :
        RawMusicData).rhythm = some r from rfl, hrv]
    rfl

/-- Witness for C9 (amended): omitting notes and chords alone succeeds with
a valid rhythm; omitting rhythm fails even with valid notes and chords. -/
theorem C9_keys_amended_witness :
    (validate_music_data
        { notes := some [], chords := some [], rhythm := none }).isOk =
      false ∧
    validate_music_data
        { notes := none, chords := none,
          rhythm := some { beats := [1], tempo := 100 } } =
      .ok { notes := [], chords := [],
            rhythm := { beats := [1], tempo := 100 } } :=
  ⟨C9_keys_amended.1 (some []) (some []),
   C9_keys_amended.2 { beats := [1], tempo := 100 } (by norm_num)⟩

/-- C10 counterexample: the format-after-parse roundtrip is not
character-preserving on every valid token: `C04` parses (octave 4) but
formats back as `C4`, so the octave digits are not left unchanged. -/
theorem C10_roundtrip_counterexample :
    (parseNote "C04").map (fun n => formatNotes [n]) = .ok "C4" ∧
    "C4" ≠ "C04" :=
  ⟨rfl, by decide⟩

/-- C10 amended: `format_notes` is a left inverse of `parse_note` on valid
tokens whose digit group is the canonical decimal rendering of its value (no
leading zeros): for those, formatting the parsed note returns the token with
its pitch letter uppercased and all other characters unchanged.  For other
tokens the octave is re-rendered canonically, as the counterexample shows. -/
theorem C10_roundtrip_canonical (c : Char) (acc : String) (ds : List Char)
    (hc : c ∈ noteLetters) (ha : acc = "" ∨ acc = "#" ∨ acc = "b")
    (hne : ds ≠ []) (hds : ds.all isDigitChar = true)
    (hcanon : (toString (digitsToNat ds)).data = ds) :
    (parseNote ⟨c :: acc.data ++ ds⟩).map (fun n => formatNotes [n]) =
      .ok ⟨c.toUpper :: acc.data ++ ds⟩ := by
  have hfmt : formatNote
      { pitch := String.mk [c.toUpper], accidental := some acc,
        octave := digitsToNat ds } =
      String.mk [c.toUpper] ++ acc ++ toString (digitsToNat ds) := by
    rcases ha with rfl | rfl | rfl <;> rfl
  rw [parseNote_builds c acc ds hc ha hne hds]
  show Except.ok (formatNotes
      [{ pitch := String.mk [c.toUpper], accidental := some acc,
         octave := digitsToNat ds }]) =
    Except.ok (⟨c.toUpper :: acc.data ++ ds⟩ : String)
  refine congrArg Except.ok ?_
  show formatNote
      { pitch := String.mk [c.toUpper], accidental := some acc,
        octave := digitsToNat ds } = _
  rw [hfmt]
  apply string_eq_of_data
  rw [string_data_append, string_data_append, hcanon]
  rfl

/-- Witness for C10 (amended) at the token `c#12`. -/
theorem C10_roundtrip_canonical_witness :
    (parseNote "c#12").map (fun n => formatNotes [n]) = .ok "C#12" :=
  C10_roundtrip_canonical 'c' "#" ['1', '2'] (by decide)
    (Or.inr (Or.inl rfl)) (by decide) (by decide) (by decide)
